import Mathlib

/-!
Verification of the environmental index and time-series engine of the
"Índices del Futuro" repository.

The development shallowly embeds the two subsystems described by the spec:

* the Raster Index Calculator of `mapas.py` (`get_all_data` and the
  per-layer display-parameter logic of `main`), with rasters modelled as
  functions from an abstract pixel type to `Option ℚ` (where `none` stands
  for a masked / undefined pixel, e.g. after a division by zero or a clip
  outside the region boundary);

* the Time-Series Loader & Filter of `graficos.py` (CSV row filtering by
  year range, per-column series assembly, and the empty-result rendering
  branch), with Python exceptions modelled by `Except`.

Numeric band and series values are modelled by `ℚ`.  Python `int(...)` and
`float(...)` parsing is modelled on ASCII decimal literals (optional sign,
digits, and for floats an optional fractional part), the forms the CSV data
uses; parsing failure is `none`, matching the `ValueError` the calls raise.
-/

/-! ### Raster Index Calculator (mapas.py) -/

/-- Per-pixel values of the four Sentinel-2 bands selected in `get_all_data`
(`B2`, `B4`, `B8`, `B11`), after the temporal median reduction. -/
structure Bands where
  b2 : ℚ
  b4 : ℚ
  b8 : ℚ
  b11 : ℚ
deriving Repr, DecidableEq

/-- Normalized difference `(a - b) / (a + b)` as computed by
`normalizedDifference`; a zero denominator yields an undefined (masked)
value, not a crash. -/
def normDiff (a b : ℚ) : Option ℚ :=
  if a + b = 0 then none else some ((a - b) / (a + b))

/-- Per-pixel NDMI: `s2.normalizedDifference(['B8', 'B11'])`. -/
def ndmiPix (s : Bands) : Option ℚ :=
  normDiff s.b8 s.b11

/-- Per-pixel SAVI: `(1 + L) * ((NIR - RED) / (NIR + RED + L))` with
`NIR = B8`, `RED = B4`, `L = 0.5`. -/
def saviPix (s : Bands) : Option ℚ :=
  if s.b8 + s.b4 + 1/2 = 0 then none
  else some ((1 + 1/2) * ((s.b8 - s.b4) / (s.b8 + s.b4 + 1/2)))

/-- Per-pixel EVI: `2.5 * ((NIR - RED) / (NIR + 6 * RED - 7.5 * BLUE + 1))`
with `NIR = B8`, `RED = B4`, `BLUE = B2`. -/
def eviPix (s : Bands) : Option ℚ :=
  if s.b8 + 6 * s.b4 - (15/2) * s.b2 + 1 = 0 then none
  else some ((5/2) * ((s.b8 - s.b4) / (s.b8 + 6 * s.b4 - (15/2) * s.b2 + 1)))

/-- Per-pixel NDBI: `s2.normalizedDifference(['B11', 'B8'])`. -/
def ndbiPix (s : Bands) : Option ℚ :=
  normDiff s.b11 s.b8

/-- Per-pixel IET: `ndmi.add(savi).add(evi).divide(ndbi.add(1))`.  An
undefined operand propagates, and a zero denominator is undefined. -/
def ietPix (s : Bands) : Option ℚ :=
  match ndmiPix s, saviPix s, eviPix s, ndbiPix s with
  | some n, some sv, some e, some nb =>
      if nb + 1 = 0 then none else some ((n + sv + e) / (nb + 1))
  | _, _, _, _ => none

/-- A raster over an abstract pixel type; `none` is a masked pixel. -/
def Raster (Pixel : Type) : Type :=
  Pixel → Option ℚ

/-- Spatial clip of a raster to a region: pixels outside the region
boundary become masked. -/
def clip {Pixel : Type} (r : Raster Pixel) (reg : Pixel → Bool) : Raster Pixel :=
  fun p => if reg p then r p else none

/-- The record returned by `get_all_data`: the five index rasters together
with the region boundary. -/
structure AllData (Pixel : Type) where
  iet : Raster Pixel
  ndmi : Raster Pixel
  savi : Raster Pixel
  evi : Raster Pixel
  ndbi : Raster Pixel
  region : Pixel → Bool

/-- Embedding of `get_all_data` in `mapas.py`: computes NDMI, SAVI, EVI,
NDBI and IET from the band composite `s2`, clips each index raster to the
region, and returns the full set together with the region boundary. -/
def get_all_data {Pixel : Type} (s2 : Pixel → Bands) (reg : Pixel → Bool) :
    AllData Pixel :=
  { iet := clip (fun p => ietPix (s2 p)) reg
    ndmi := clip (fun p => ndmiPix (s2 p)) reg
    savi := clip (fun p => saviPix (s2 p)) reg
    evi := clip (fun p => eviPix (s2 p)) reg
    ndbi := clip (fun p => ndbiPix (s2 p)) reg
    region := reg }

/-! ### Time-Series Loader & Filter (graficos.py) -/

/-- A raw CSV row: the list of its fields as strings. -/
abbrev CsvRow := List String

/-- Python-style strip of leading and trailing whitespace over a character
list (used both by `str.strip()` and inside `int(...)` / `float(...)`). -/
def stripChars (cs : List Char) : List Char :=
  ((cs.dropWhile Char.isWhitespace).reverse.dropWhile Char.isWhitespace).reverse

/-- Truthiness test of `s.strip()` in Python: `true` when nothing but
whitespace remains. -/
def isBlank (s : String) : Bool :=
  decide (stripChars s.toList = [])

/-- Parses a nonempty all-digit character list into a natural number;
`none` if the list is empty or holds a non-digit. -/
def parseDigits (cs : List Char) : Option Nat :=
  if cs = [] then none
  else
    cs.foldl
      (fun acc c =>
        match acc with
        | none => none
        | some n => if c.isDigit then some (n * 10 + (c.toNat - 48)) else none)
      (some 0)

/-- Python `int(str)` on ASCII decimal literals: strips whitespace, allows
one leading sign, then requires nonempty digits.  `none` models the
`ValueError` raised on any other form. -/
def pyInt (s : String) : Option Int :=
  match stripChars s.toList with
  | [] => none
  | '-' :: rest => (parseDigits rest).map (fun n => -(n : Int))
  | '+' :: rest => (parseDigits rest).map (fun n => (n : Int))
  | cs => (parseDigits cs).map (fun n => (n : Int))

/-- Splits a character list at the first dot, if any. -/
def splitAtDot : List Char → List Char × Option (List Char)
  | [] => ([], none)
  | c :: rest =>
      if c = '.' then ([], some rest)
      else
        let r := splitAtDot rest
        (c :: r.1, r.2)

/-- Parses an unsigned decimal literal (digits with an optional fractional
part, at least one digit overall) into a rational. -/
def parseDecimal (cs : List Char) : Option ℚ :=
  let p := splitAtDot cs
  match p.2 with
  | none => (parseDigits p.1).map (fun n => (n : ℚ))
  | some frac =>
      if p.1 = [] ∧ frac = [] then none
      else
        let ip := if p.1 = [] then some 0 else parseDigits p.1
        let fp := if frac = [] then some 0 else parseDigits frac
        match ip, fp with
        | some i, some f => some ((i : ℚ) + (f : ℚ) / (10 : ℚ) ^ frac.length)
        | _, _ => none

/-- Python `float(str)` on ASCII decimal literals: strips whitespace,
allows one leading sign, then a decimal form such as `12`, `12.5`, `12.`
or `.5`.  `none` models the `ValueError` raised on any other form. -/
def pyFloat (s : String) : Option ℚ :=
  match stripChars s.toList with
  | [] => none
  | '-' :: rest => (parseDecimal rest).map (fun q => -q)
  | '+' :: rest => parseDecimal rest
  | cs => parseDecimal cs

/-- The Python exceptions the chart code can raise while filtering and
assembling series. -/
inductive PyError
  | valueError
  | indexError
deriving Repr, DecidableEq

/-- One evaluation of the row filter condition
`row and len(row) > minLen and row[yearIdx].strip() and
lo <= int(row[yearIdx]) <= hi` (left to right, short-circuiting):
`ok b` says the row is kept iff `b`; `error` models the exception the
condition raises (`IndexError` from `row[yearIdx]`, `ValueError` from
`int(...)`). -/
def rowKeep (minLen yearIdx : Nat) (lo hi : Int) (row : CsvRow) :
    Except PyError Bool :=
  if row = [] then .ok false
  else if ¬ row.length > minLen then .ok false
  else
    match row.get? yearIdx with
    | none => .error .indexError
    | some y =>
        if isBlank y then .ok false
        else
          match pyInt y with
          | none => .error .valueError
          | some n => .ok (decide (lo ≤ n ∧ n ≤ hi))

/-- The list comprehension
`[row for row in data[1:] if <rowKeep condition>]`: keeps the rows whose
condition is true, in order, and raises the first exception the condition
raises. -/
def filteredRows (minLen yearIdx : Nat) (lo hi : Int) :
    List CsvRow → Except PyError (List CsvRow)
  | [] => .ok []
  | row :: rest =>
      match rowKeep minLen yearIdx lo hi row with
      | .error e => .error e
      | .ok b =>
          match filteredRows minLen yearIdx lo hi rest with
          | .error e => .error e
          | .ok l => .ok (if b then row :: l else l)

/-- Row filter of the vegetation-loss and secondary-vegetation branches:
`row and len(row) > 2 and row[2].strip() and
year_range[0] <= int(row[2]) <= year_range[1]`. -/
def filteredRowsVeg (lo hi : Int) (rows : List CsvRow) :
    Except PyError (List CsvRow) :=
  filteredRows 2 2 lo hi rows

/-- Row filter of the land-cover branch: `row and len(row) > 4 and
row[6].strip() and year_range[0] <= int(row[6]) <= year_range[1]`. -/
def filteredRowsCov (lo hi : Int) (rows : List CsvRow) :
    Except PyError (List CsvRow) :=
  filteredRows 4 6 lo hi rows

/-- The pass predicate the filter condition decides when it does not raise:
the row is nonempty, long enough, its year field is non-blank, and the year
parses to an integer within `[lo, hi]`. -/
def rowPassesB (minLen yearIdx : Nat) (lo hi : Int) (row : CsvRow) : Bool :=
  !decide (row = []) && decide (row.length > minLen) &&
  (match row.get? yearIdx with
   | none => false
   | some y =>
      !(isBlank y) &&
      (match pyInt y with
       | none => false
       | some n => decide (lo ≤ n ∧ n ≤ hi)))

/-- One evaluation of `int(row[yearIdx])`. -/
def yearOf (yearIdx : Nat) (row : CsvRow) : Except PyError Int :=
  match row.get? yearIdx with
  | none => .error .indexError
  | some y =>
      match pyInt y with
      | none => .error .valueError
      | some n => .ok n

/-- The year axis `[int(row[yearIdx]) for row in filtered_rows]`. -/
def yearsOf (yearIdx : Nat) : List CsvRow → Except PyError (List Int)
  | [] => .ok []
  | row :: rest =>
      match yearOf yearIdx row with
      | .error e => .error e
      | .ok n =>
          match yearsOf yearIdx rest with
          | .error e => .error e
          | .ok l => .ok (n :: l)

/-- One evaluation of `float(row[c])`. -/
def floatAt (c : Nat) (row : CsvRow) : Except PyError ℚ :=
  match row.get? c with
  | none => .error .indexError
  | some v =>
      match pyFloat v with
      | none => .error .valueError
      | some q => .ok q

/-- One value series `[float(row[c]) for row in filtered_rows]`. -/
def seriesValues (c : Nat) : List CsvRow → Except PyError (List ℚ)
  | [] => .ok []
  | row :: rest =>
      match floatAt c row with
      | .error e => .error e
      | .ok q =>
          match seriesValues c rest with
          | .error e => .error e
          | .ok l => .ok (q :: l)

/-- The toggle-driven series assembly of the vegetation-loss branch
(mirrored verbatim by the secondary-vegetation branch): primary from
column 0, secondary from column 1, a toggled-off series replaced by
`[0.0] * len(years)` where `len(years) = len(filtered_rows)`. -/
def assembleVegSeries (pOn sOn : Bool) (filtered : List CsvRow) :
    Except PyError (List ℚ × List ℚ) :=
  let zeros := List.replicate filtered.length (0 : ℚ)
  if pOn ∧ sOn then
    match seriesValues 0 filtered with
    | .error e => .error e
    | .ok p =>
        match seriesValues 1 filtered with
        | .error e => .error e
        | .ok s => .ok (p, s)
  else if pOn then
    match seriesValues 0 filtered with
    | .error e => .error e
    | .ok p => .ok (p, zeros)
  else if sOn then
    match seriesValues 1 filtered with
    | .error e => .error e
    | .ok s => .ok (zeros, s)
  else
    .ok (zeros, zeros)

/-- The rendering branch over the assembled frame: `st.info(...)` when the
data frame is empty (no surviving year), the line chart otherwise. -/
def renderChart (years : List Int) : String :=
  if years = [] then "No hay datos para el rango de años seleccionado."
  else "line_chart"
/-! ### Tabular source loading (graficos.py, `open` + `csv.reader`) -/

/-- State of the tabular source on disk: absent, present but not decodable
under the platform default text encoding, or decodable with the given rows.
A Latin-1 decoding always succeeds, so the rows are carried even in the
non-default-decodable state. -/
inductive FileState
  | missing
  | file (defaultDecodes : Bool) (rows : List CsvRow)
deriving Repr, DecidableEq

/-- Errors the load step can raise. -/
inductive LoadError
  | fileNotFound (path : String)
  | unicodeDecodeError
deriving Repr, DecidableEq

/-- Embedding of the load step in `graficos.py`:
`with open(file, newline=<empty>) as csvfile: ...csv.reader...`.  A missing
file raises `FileNotFoundError` naming the path; content that the platform
default encoding cannot decode raises `UnicodeDecodeError`; otherwise the
rows are read.  There is no retry under any other encoding. -/
def loadData (path : String) (fs : String → FileState) :
    Except LoadError (List CsvRow) :=
  match fs path with
  | .missing => .error (.fileNotFound path)
  | .file ok rows => if ok then .ok rows else .error .unicodeDecodeError

/-- Modelled from the spec: the loader that claim C8 describes, which on a
default-encoding decode failure retries with a Latin-1 fallback (Latin-1
decodes every byte sequence, so the retry always succeeds) before any
`SourceUnreadableError`, and fails fast on a missing source. -/
def loadDataClaim (path : String) (fs : String → FileState) :
    Except LoadError (List CsvRow) :=
  match fs path with
  | .missing => .error (.fileNotFound path)
  | .file _ rows => .ok rows

/-! ### Layer selection and display parameters (mapas.py, `main`) -/

/-- The display parameters of one layer: slider-chosen minimum and maximum
and the colour palette. -/
structure VisParams where
  minVal : ℚ
  maxVal : ℚ
  palette : List String
deriving Repr, DecidableEq

/-- Identity of one `st.sidebar.slider` call: since none of the calls in
`main` passes an explicit key, Streamlit derives the widget id from the
label and the numeric arguments (lower limit, upper limit, initial value,
step). -/
structure SliderSpec where
  label : String
  lower : ℚ
  upper : ℚ
  initial : ℚ
  step : ℚ
deriving Repr, DecidableEq

/-- The minimum slider of the `"Índice IET"` branch:
`st.sidebar.slider("Valor mínimo", 0.0, 0.5, 0.0, 0.01)`. -/
def vminIET : SliderSpec :=
  ⟨"Valor mínimo", 0, 1/2, 0, 1/100⟩

/-- The maximum slider of the `"Índice IET"` branch:
`st.sidebar.slider("Valor máximo", 0.5, 2.0, 1.0, 0.01)`. -/
def vmaxIET : SliderSpec :=
  ⟨"Valor máximo", 1/2, 2, 1, 1/100⟩

/-- The minimum slider repeated verbatim in the NDMI, SAVI, EVI and NDBI
branches of both configuration blocks:
`st.sidebar.slider("Valor mínimo", -1.0, 0.0, -1.0, 0.1)`. -/
def vminStd : SliderSpec :=
  ⟨"Valor mínimo", -1, 0, -1, 1/10⟩

/-- The maximum slider repeated verbatim in the NDMI, SAVI, EVI and NDBI
branches of both configuration blocks:
`st.sidebar.slider("Valor máximo", 0.0, 1.0, 1.0, 0.1)`. -/
def vmaxStd : SliderSpec :=
  ⟨"Valor máximo", 0, 1, 1, 1/10⟩

/-- Runtime errors of `main` outside the try block: reading the local
variable `data` before its assignment (`UnboundLocalError`), and creating
a second widget with the same derived id as an existing one (Streamlit's
duplicate-element error). -/
inductive MainError
  | unboundLocalData
  | duplicateWidgetId
deriving Repr, DecidableEq

/-- One `st.sidebar.slider` call: if a widget with the same derived id
already exists in this run, Streamlit raises its duplicate-element error;
otherwise the widget renders, joins the registry, and the user-chosen
value is returned. -/
def sliderCall (registry : List SliderSpec) (spec : SliderSpec) (value : ℚ) :
    Except MainError (ℚ × List SliderSpec) :=
  if spec ∈ registry then .error .duplicateWidgetId
  else .ok (value, registry ++ [spec])

/-- One branch body of a configuration block: a minimum slider, a maximum
slider, and a palette assignment. -/
def twoSliders (registry : List SliderSpec) (s1 s2 : SliderSpec) (v1 v2 : ℚ)
    (pal : List String) : Except MainError (VisParams × List SliderSpec) :=
  match sliderCall registry s1 v1 with
  | .error e => .error e
  | .ok (a, reg1) =>
      match sliderCall reg1 s2 v2 with
      | .error e => .error e
      | .ok (b, reg2) => .ok (⟨a, b, pal⟩, reg2)

/-- The five selections offered by the layer selectbox of `main`. -/
def layerOptions : List String :=
  ["Índice IET", "NDMI", "SAVI", "EVI", "NDBI"]

/-- First configuration block of `main` (mapas.py lines 196 to 227, the
one whose values reach `vis_params`): per selected layer, create the two
sliders and set the palette; `sMin` and `sMax` are the user-chosen slider
values. -/
def firstConfigBlock (layer : String) (sMin sMax : ℚ)
    (registry : List SliderSpec) :
    Except MainError (VisParams × List SliderSpec) :=
  if layer = "Índice IET" then
    twoSliders registry vminIET vmaxIET sMin sMax ["red", "yellow", "green"]
  else if layer = "NDMI" then
    twoSliders registry vminStd vmaxStd sMin sMax ["brown", "yellow", "blue"]
  else if layer = "SAVI" then
    twoSliders registry vminStd vmaxStd sMin sMax ["brown", "yellow", "green"]
  else if layer = "EVI" then
    twoSliders registry vminStd vmaxStd sMin sMax ["brown", "yellow", "green"]
  else if layer = "NDBI" then
    twoSliders registry vminStd vmaxStd sMin sMax ["green", "yellow", "gray"]
  else .ok (⟨0, 1, ["blue", "green", "red"]⟩, registry)

/-- Second configuration block of `main` (mapas.py lines 230 to 253, still
outside the try block): in the `"Índice IET"` branch it evaluates
`data['iet']` although the local variable `data` is only assigned later in
the try block, raising `UnboundLocalError`; in the NDMI, SAVI, EVI and
NDBI branches it repeats the first block's slider calls with identical
labels and arguments (fresh reads `sMin2`, `sMax2`) and reassigns
`min_val`, `max_val`, `palette`, values never read again; the final `else`
only reassigns the defaults and creates no widget. -/
def secondConfigBlock (layer : String) (sMin2 sMax2 : ℚ)
    (registry : List SliderSpec) : Except MainError (List SliderSpec) :=
  if layer = "Índice IET" then .error .unboundLocalData
  else if layer = "NDMI" then
    match twoSliders registry vminStd vmaxStd sMin2 sMax2
        ["brown", "yellow", "blue"] with
    | .error e => .error e
    | .ok (_, reg) => .ok reg
  else if layer = "SAVI" then
    match twoSliders registry vminStd vmaxStd sMin2 sMax2
        ["brown", "yellow", "green"] with
    | .error e => .error e
    | .ok (_, reg) => .ok reg
  else if layer = "EVI" then
    match twoSliders registry vminStd vmaxStd sMin2 sMax2
        ["brown", "yellow", "green"] with
    | .error e => .error e
    | .ok (_, reg) => .ok reg
  else if layer = "NDBI" then
    match twoSliders registry vminStd vmaxStd sMin2 sMax2
        ["green", "yellow", "gray"] with
    | .error e => .error e
    | .ok (_, reg) => .ok reg
  else .ok registry

/-- Observable outcome of one run of the layer-display part of `main`:
which index layer was added with which display parameters, the widgets
rendered, and that the region outline layer was added. -/
structure MainOutput where
  indexLayer : Option (String × VisParams)
  widgets : List SliderSpec
  regionOutline : Bool
deriving Repr, DecidableEq

/-- The index layer the try block of `main` adds for a selection. -/
def indexLayerFor (layer : String) (vp : VisParams) :
    Option (String × VisParams) :=
  if layer = "Índice IET" then some ("Índice IET", vp)
  else if layer = "NDMI" then some ("NDMI", vp)
  else if layer = "SAVI" then some ("SAVI", vp)
  else if layer = "EVI" then some ("EVI", vp)
  else if layer = "NDBI" then some ("NDBI", vp)
  else none

/-- Embedding of the layer-display control flow of `main` in `mapas.py`:
the first configuration block computes `min_val`, `max_val`, `palette` and
`vis_params` is built from them; the second configuration block then runs
(still outside the try block); the try block loads the data (`dataOk`
tells whether `get_all_data` succeeded) and adds the selected layer using
the already-built `vis_params`, plus the region outline. -/
def mainDisplay (layer : String) (sMin sMax sMin2 sMax2 : ℚ)
    (dataOk : Bool) : Except MainError (Option MainOutput) :=
  match firstConfigBlock layer sMin sMax [] with
  | .error e => .error e
  | .ok (vp, reg1) =>
      match secondConfigBlock layer sMin2 sMax2 reg1 with
      | .error e => .error e
      | .ok reg2 =>
          if dataOk then .ok (some ⟨indexLayerFor layer vp, reg2, true⟩)
          else .ok none

/-- The variant claim C9 compares against: each display parameter is
computed exactly once per layer selection and the duplicated block is
removed. -/
def mainDisplayOnce (layer : String) (sMin sMax : ℚ) (dataOk : Bool) :
    Except MainError (Option MainOutput) :=
  match firstConfigBlock layer sMin sMax [] with
  | .error e => .error e
  | .ok (vp, reg1) =>
      if dataOk then .ok (some ⟨indexLayerFor layer vp, reg1, true⟩)
      else .ok none


/-! ### Claims about the Raster Index Calculator -/

/-- C1: for every band composite and region, `get_all_data` computes NDMI,
SAVI, EVI and NDBI from the bands and the composite IET as
`(NDMI + SAVI + EVI) / (NDBI + 1)`, clips every derived index raster to the
region boundary, and returns the full set of indices together with the
region boundary. -/
theorem C1_raster_calculator {Pixel : Type} (s2 : Pixel → Bands)
    (reg : Pixel → Bool) (p : Pixel) (n sv e nb : ℚ)
    (hn : ndmiPix (s2 p) = some n) (hs : saviPix (s2 p) = some sv)
    (he : eviPix (s2 p) = some e) (hb : ndbiPix (s2 p) = some nb)
    (hnz : nb + 1 ≠ 0) :
    (get_all_data s2 reg).ndmi p = (if reg p then ndmiPix (s2 p) else none) ∧
    (get_all_data s2 reg).savi p = (if reg p then saviPix (s2 p) else none) ∧
    (get_all_data s2 reg).evi p = (if reg p then eviPix (s2 p) else none) ∧
    (get_all_data s2 reg).ndbi p = (if reg p then ndbiPix (s2 p) else none) ∧
    (get_all_data s2 reg).iet p =
      (if reg p then some ((n + sv + e) / (nb + 1)) else none) ∧
    (get_all_data s2 reg).region = reg := by
  refine ⟨rfl, rfl, rfl, rfl, ?_, rfl⟩
  show clip (fun q => ietPix (s2 q)) reg p = _
  unfold clip
  by_cases h : reg p <;> simp [h, ietPix, hn, hs, he, hb, hnz]

/-- Witness for C1 at a concrete one-pixel raster with bands
`B2 = 0, B4 = 0, B8 = 1, B11 = 1`. -/
theorem C1_raster_calculator_witness :
    (get_all_data (fun _ : Unit => Bands.mk 0 0 1 1) (fun _ => true)).iet () =
      some (9/4) := by
  have h := C1_raster_calculator (fun _ : Unit => Bands.mk 0 0 1 1)
    (fun _ => true) () 0 1 (5/4) 0 (by norm_num [ndmiPix, normDiff])
    (by norm_num [saviPix]) (by norm_num [eviPix])
    (by norm_num [ndbiPix, normDiff]) (by norm_num)
  rw [h.2.2.2.2.1]
  norm_num

/-- Helper: a normalized difference of two nonnegative values, where
defined, lies within `[-1, 1]`. -/
theorem normDiff_bounds (a b : ℚ) (ha : 0 ≤ a) (hb : 0 ≤ b) (x : ℚ)
    (hx : normDiff a b = some x) : -1 ≤ x ∧ x ≤ 1 := by
  unfold normDiff at hx
  by_cases h : a + b = 0
  · simp [h] at hx
  · simp [h] at hx
    have hpos : 0 < a + b := lt_of_le_of_ne (by linarith) (Ne.symm h)
    constructor
    · rw [← hx, le_div_iff hpos]
      linarith
    · rw [← hx, div_le_one hpos]
      linarith

/-- Counterexample to C5: at the valid (nonnegative) band set
`B2 = 0, B4 = 0, B8 = 10, B11 = 0` the code computes
`SAVI = 10/7 > 1` and `EVI = 25/11 > 1`, so SAVI and EVI do not stay
within `[-1, 1]`. -/
theorem C5_counterexample :
    (0 : ℚ) ≤ (Bands.mk 0 0 10 0).b2 ∧ (0 : ℚ) ≤ (Bands.mk 0 0 10 0).b4 ∧
    (0 : ℚ) ≤ (Bands.mk 0 0 10 0).b8 ∧ (0 : ℚ) ≤ (Bands.mk 0 0 10 0).b11 ∧
    saviPix (Bands.mk 0 0 10 0) = some (10/7) ∧ ¬ ((10 : ℚ)/7 ≤ 1) ∧
    eviPix (Bands.mk 0 0 10 0) = some (25/11) ∧ ¬ ((25 : ℚ)/11 ≤ 1) := by
  refine ⟨by norm_num, by norm_num, by norm_num, by norm_num, ?_, by norm_num,
    ?_, by norm_num⟩
  · norm_num [saviPix]
  · norm_num [eviPix]

/-- C5 (amended): for valid (nonnegative) band sets, NDMI and NDBI lie
within `[-1, 1]` wherever defined and are undefined exactly when their
denominator is zero; SAVI is always defined and lies within
`[-3/2, 3/2]` (it can exceed `1`); EVI is undefined exactly when its
denominator is zero.  Division by zero always yields a representable
undefined value (`none`), never a crash. -/
theorem C5_amended (s : Bands) (h2 : 0 ≤ s.b2) (h4 : 0 ≤ s.b4)
    (h8 : 0 ≤ s.b8) (h11 : 0 ≤ s.b11) :
    (∀ x, ndmiPix s = some x → -1 ≤ x ∧ x ≤ 1) ∧
    (∀ x, ndbiPix s = some x → -1 ≤ x ∧ x ≤ 1) ∧
    (∃ y, saviPix s = some y ∧ -(3/2) ≤ y ∧ y ≤ 3/2) ∧
    (ndmiPix s = none ↔ s.b8 + s.b11 = 0) ∧
    (ndbiPix s = none ↔ s.b11 + s.b8 = 0) ∧
    (eviPix s = none ↔ s.b8 + 6 * s.b4 - (15/2) * s.b2 + 1 = 0) := by
  refine ⟨fun x hx => normDiff_bounds s.b8 s.b11 h8 h11 x hx,
    fun x hx => normDiff_bounds s.b11 s.b8 h11 h8 x hx, ?_, ?_, ?_, ?_⟩
  · have hd : 0 < s.b8 + s.b4 + 1/2 := by linarith
    refine ⟨(1 + 1/2) * ((s.b8 - s.b4) / (s.b8 + s.b4 + 1/2)), ?_, ?_, ?_⟩
    · unfold saviPix
      rw [if_neg (by linarith)]
    · have hq : -1 ≤ (s.b8 - s.b4) / (s.b8 + s.b4 + 1/2) := by
        rw [le_div_iff hd]; linarith
      nlinarith
    · have hq : (s.b8 - s.b4) / (s.b8 + s.b4 + 1/2) ≤ 1 := by
        rw [div_le_one hd]; linarith
      nlinarith
  · unfold ndmiPix normDiff
    split <;> simp_all
  · unfold ndbiPix normDiff
    split <;> simp_all
  · unfold eviPix
    split <;> simp_all

/-- Witness for C5 (amended) at the band set
`B2 = 0, B4 = 0, B8 = 1, B11 = 1`. -/
theorem C5_amended_witness :
    ∃ y, saviPix (Bands.mk 0 0 1 1) = some y ∧ -(3/2) ≤ y ∧ y ≤ 3/2 :=
  (C5_amended (Bands.mk 0 0 1 1) (by norm_num) (by norm_num) (by norm_num)
    (by norm_num)).2.2.1

/-- C6: wherever NDBI is defined and nonnegative, the IET denominator
`NDBI + 1` is at least `1`, hence nonzero, and the IET division goes
through: whenever the other operands are also defined, IET is the
well-defined quotient `(NDMI + SAVI + EVI) / (NDBI + 1)`. -/
theorem C6_denominator_guard (s : Bands) (nb : ℚ)
    (hb : ndbiPix s = some nb) (hnn : 0 ≤ nb) :
    1 ≤ nb + 1 ∧ nb + 1 ≠ 0 ∧
    (∀ n sv e, ndmiPix s = some n → saviPix s = some sv →
      eviPix s = some e → ietPix s = some ((n + sv + e) / (nb + 1))) := by
  refine ⟨by linarith, by positivity, fun n sv e hn hs he => ?_⟩
  unfold ietPix
  rw [hn, hs, he, hb]
  simp only
  rw [if_neg (by positivity)]

/-- Witness for C6 at the band set `B2 = 0, B4 = 0, B8 = 1, B11 = 1`,
where `NDBI = 0`. -/
theorem C6_denominator_guard_witness :
    ietPix (Bands.mk 0 0 1 1) = some ((0 + 1 + 5/4) / (0 + 1)) :=
  (C6_denominator_guard (Bands.mk 0 0 1 1) 0
      (by norm_num [ndbiPix, normDiff]) (by norm_num)).2.2 0 1 (5/4)
    (by norm_num [ndmiPix, normDiff]) (by norm_num [saviPix])
    (by norm_num [eviPix])


/-! ### Claims about the Time-Series Loader & Filter -/

/-- Helper: when the year field of a row parses whenever it is reached,
the filter condition does not raise and decides `rowPassesB`.  Requires
`yearIdx ≤ minLen` so the length check protects the index access (true of
the vegetation branches, not of the land-cover branch). -/
theorem rowKeep_ok_of_parseable (minLen yearIdx : Nat) (hidx : yearIdx ≤ minLen)
    (lo hi : Int) (row : CsvRow)
    (h : ∀ y, row.get? yearIdx = some y → isBlank y = false → (pyInt y).isSome) :
    rowKeep minLen yearIdx lo hi row =
      Except.ok (rowPassesB minLen yearIdx lo hi row) := by
  unfold rowKeep rowPassesB
  by_cases h0 : row = []
  · simp [h0]
  · by_cases h1 : row.length > minLen
    · have hlt : yearIdx < row.length := lt_of_le_of_lt hidx h1
      have hy2 : row[yearIdx]? = some row[yearIdx] :=
        List.getElem?_eq_getElem hlt
      have hy : row.get? yearIdx = some row[yearIdx] := by
        rw [List.get?_eq_getElem?]
        exact hy2
      by_cases hb : isBlank row[yearIdx]
      · simp [h0, h1, hy, hy2, hb]
      · obtain ⟨n, hn⟩ := Option.isSome_iff_exists.mp
          (h _ hy (Bool.not_eq_true _ ▸ hb))
        simp [h0, h1, hy, hy2, hb, hn]
    · simp [h0, h1]

/-- Helper: under the same parseability condition on every row, the filter
list comprehension returns exactly the rows passing `rowPassesB`. -/
theorem filteredRows_eq_filter (minLen yearIdx : Nat) (hidx : yearIdx ≤ minLen)
    (lo hi : Int) (rows : List CsvRow)
    (h : ∀ row ∈ rows, ∀ y, row.get? yearIdx = some y → isBlank y = false →
        (pyInt y).isSome) :
    filteredRows minLen yearIdx lo hi rows =
      Except.ok (rows.filter (rowPassesB minLen yearIdx lo hi)) := by
  induction rows with
  | nil => rfl
  | cons row rest ih =>
      have hk := rowKeep_ok_of_parseable minLen yearIdx hidx lo hi row
        (h row (by simp))
      have hr := ih (fun r hmem => h r (by simp [hmem]))
      unfold filteredRows
      rw [hk, hr]
      by_cases hp : rowPassesB minLen yearIdx lo hi row
      · simp [List.filter_cons, hp]
      · simp [List.filter_cons, hp]

/-- Counterexample to C2: a row whose year field is non-blank but not an
integer (here `"abc"`) is not silently dropped; the filter raises
`ValueError` from `int(row[2])`. -/
theorem C2_counterexample :
    filteredRowsVeg 1985 2024 [["1.0", "2.0", "abc"]] =
      Except.error PyError.valueError ∧
    filteredRowsVeg 1985 2024 [["1.0", "2.0", "abc"]] ≠
      Except.ok [] := by
  refine ⟨rfl, fun hcontra => ?_⟩
  rw [show filteredRowsVeg 1985 2024 [["1.0", "2.0", "abc"]] =
    Except.error PyError.valueError from rfl] at hcontra
  exact Except.noConfusion hcontra

/-- C2 (amended): provided every non-blank year field that survives the
column-count check parses as an integer, a row is included if and only if
it has more than two columns, a non-blank year field at index 2, and a
parsed year within `[lo, hi]` (the predicate `rowPassesB`); rows failing
the column-count or blank-year checks are silently dropped.  A non-blank
unparseable year instead raises `ValueError`, as the counterexample
shows. -/
theorem C2_amended_row_filter (lo hi : Int) (rows : List CsvRow)
    (h : ∀ row ∈ rows, ∀ y, row.get? 2 = some y → isBlank y = false →
        (pyInt y).isSome) :
    filteredRowsVeg lo hi rows =
      Except.ok (rows.filter (rowPassesB 2 2 lo hi)) :=
  filteredRows_eq_filter 2 2 le_rfl lo hi rows h

/-- Witness for C2 (amended): of a valid row, a blank-year row and a short
row, only the first survives. -/
theorem C2_amended_row_filter_witness :
    filteredRowsVeg 1985 2024 [["1", "2", "2000"], ["9", "9", " "], ["1", "2"]] =
      Except.ok [["1", "2", "2000"]] := by
  have h := C2_amended_row_filter 1985 2024
    [["1", "2", "2000"], ["9", "9", " "], ["1", "2"]] ?hpar
  · rw [h]
    rfl
  case hpar =>
    intro row hr y hy hb
    simp only [List.mem_cons, List.not_mem_nil, or_false] at hr
    rcases hr with h1 | h2 | h3
    · subst h1
      injection hy with hy2
      subst hy2
      rfl
    · subst h2
      injection hy with hy2
      subst hy2
      simp [isBlank, stripChars] at hb
    · subst h3
      exact Option.noConfusion hy

/-- Helper: a value series built from a row list has one entry per row. -/
theorem seriesValues_length (c : Nat) (rows : List CsvRow) :
    ∀ l, seriesValues c rows = Except.ok l → l.length = rows.length := by
  induction rows with
  | nil =>
      intro l hl
      simp only [seriesValues, Except.ok.injEq] at hl
      subst hl
      rfl
  | cons row rest ih =>
      intro l hl
      unfold seriesValues at hl
      cases hf : floatAt c row with
      | error e => simp [hf] at hl
      | ok q =>
          cases hs : seriesValues c rest with
          | error e => simp [hf, hs] at hl
          | ok l2 =>
              simp only [hf, hs, Except.ok.injEq] at hl
              subst hl
              simp [ih l2 hs]

/-- Helper: the year axis has one entry per filtered row. -/
theorem yearsOf_length (yearIdx : Nat) (rows : List CsvRow) :
    ∀ ys, yearsOf yearIdx rows = Except.ok ys → ys.length = rows.length := by
  induction rows with
  | nil =>
      intro ys hl
      simp only [yearsOf, Except.ok.injEq] at hl
      subst hl
      rfl
  | cons row rest ih =>
      intro ys hl
      unfold yearsOf at hl
      cases hf : yearOf yearIdx row with
      | error e => simp [hf] at hl
      | ok n =>
          cases hs : yearsOf yearIdx rest with
          | error e => simp [hf, hs] at hl
          | ok l2 =>
              simp only [hf, hs, Except.ok.injEq] at hl
              subst hl
              simp [ih l2 hs]

/-- C3: whenever the assembly succeeds, both series are as long as the
year axis in every toggle combination; a toggled-off series is the
explicit all-zero series of that length (never shorter, never omitted),
and with both toggles off both series are all-zero of that same length
rather than empty. -/
theorem C3_series_alignment (pOn sOn : Bool) (filtered : List CsvRow)
    (ys : List Int) (p s : List ℚ)
    (hy : yearsOf 2 filtered = Except.ok ys)
    (ha : assembleVegSeries pOn sOn filtered = Except.ok (p, s)) :
    p.length = ys.length ∧ s.length = ys.length ∧
    (pOn = false → p = List.replicate ys.length 0) ∧
    (sOn = false → s = List.replicate ys.length 0) := by
  have hyl : ys.length = filtered.length := yearsOf_length 2 filtered ys hy
  unfold assembleVegSeries at ha
  cases pOn <;> cases sOn
  · simp only [Bool.false_eq_true, and_self, if_false, if_neg, not_false_iff,
      Except.ok.injEq, Prod.mk.injEq] at ha
    obtain ⟨hp, hs⟩ := ha
    subst hp
    subst hs
    simp [hyl]
  · simp only [Bool.false_eq_true, false_and, if_false, eq_self_iff_true,
      if_true] at ha
    cases h1 : seriesValues 1 filtered with
    | error e => simp [h1] at ha
    | ok l1 =>
        simp only [h1, Except.ok.injEq, Prod.mk.injEq] at ha
        obtain ⟨hp, hs⟩ := ha
        subst hp
        subst hs
        simp [hyl, seriesValues_length 1 filtered l1 h1]
  · simp only [Bool.false_eq_true, and_false, if_false, eq_self_iff_true,
      if_true] at ha
    cases h0 : seriesValues 0 filtered with
    | error e => simp [h0] at ha
    | ok l0 =>
        simp only [h0, Except.ok.injEq, Prod.mk.injEq] at ha
        obtain ⟨hp, hs⟩ := ha
        subst hp
        subst hs
        simp [hyl, seriesValues_length 0 filtered l0 h0]
  · simp only [and_self, eq_self_iff_true, if_true] at ha
    cases h0 : seriesValues 0 filtered with
    | error e => simp [h0] at ha
    | ok l0 =>
        cases h1 : seriesValues 1 filtered with
        | error e => simp [h0, h1] at ha
        | ok l1 =>
            simp only [h0, h1, Except.ok.injEq, Prod.mk.injEq] at ha
            obtain ⟨hp, hs⟩ := ha
            subst hp
            subst hs
            refine ⟨?_, ?_, by simp, by simp⟩
            · rw [hyl]
              exact seriesValues_length 0 filtered l0 h0
            · rw [hyl]
              exact seriesValues_length 1 filtered l1 h1

/-- Witness for C3 with primary on and secondary off over one row. -/
theorem C3_series_alignment_witness :
    ([(3 : ℚ)].length = [(2001 : Int)].length ∧
     [(0 : ℚ)].length = [(2001 : Int)].length ∧
     (true = false → [(3 : ℚ)] = List.replicate [(2001 : Int)].length 0) ∧
     (false = false → [(0 : ℚ)] = List.replicate [(2001 : Int)].length 0)) :=
  C3_series_alignment true false [["3", "7", "2001"]] [2001] [3] [0] rfl rfl

/-- C4: for a year range `[lo, hi]` with `lo ≤ hi` that no dataset year
falls in (each well-formed row parses to a year outside the range), the
filter returns an explicit empty row list without error, the year axis and
both series are explicitly empty, and the caller renders the "no data"
message instead of an error. -/
theorem C4_empty_range (lo hi : Int) (rows : List CsvRow) (hle : lo ≤ hi)
    (h : ∀ row ∈ rows, ∀ y, row.get? 2 = some y → isBlank y = false →
        ∃ n, pyInt y = some n ∧ ¬ (lo ≤ n ∧ n ≤ hi)) :
    filteredRowsVeg lo hi rows = Except.ok [] ∧
    yearsOf 2 [] = Except.ok ([] : List Int) ∧
    assembleVegSeries true true [] = Except.ok (([] : List ℚ), ([] : List ℚ)) ∧
    renderChart [] = "No hay datos para el rango de años seleccionado." := by
  refine ⟨?_, rfl, rfl, rfl⟩
  have hpar : ∀ row ∈ rows, ∀ y, row.get? 2 = some y → isBlank y = false →
      (pyInt y).isSome := by
    intro row hr y hy hb
    obtain ⟨n, hn, _⟩ := h row hr y hy hb
    simp [hn]
  rw [show filteredRowsVeg lo hi rows = filteredRows 2 2 lo hi rows from rfl,
    filteredRows_eq_filter 2 2 le_rfl lo hi rows hpar]
  simp only [Except.ok.injEq]
  rw [List.filter_eq_nil_iff]
  intro row hr
  unfold rowPassesB
  by_cases h0 : row = []
  · simp [h0]
  · by_cases h1 : row.length > 2
    · have hlt : (2 : Nat) < row.length := h1
      have hy2 : row[2]? = some row[2] := List.getElem?_eq_getElem hlt
      have hy : row.get? 2 = some row[2] := by
        rw [List.get?_eq_getElem?]
        exact hy2
      by_cases hb : isBlank row[2]
      · simp [h0, h1, hy2, hb]
      · obtain ⟨n, hn, hout⟩ := h row hr row[2] hy (Bool.not_eq_true _ ▸ hb)
        simp [h0, h1, hy2, hb, hn, hout]
    · simp [h0, h1]

/-- Witness for C4: one row with year 1980 against the range 2000–2024. -/
theorem C4_empty_range_witness :
    filteredRowsVeg 2000 2024 [["3", "7", "1980"]] = Except.ok [] ∧
    yearsOf 2 [] = Except.ok ([] : List Int) ∧
    assembleVegSeries true true [] = Except.ok (([] : List ℚ), ([] : List ℚ)) ∧
    renderChart [] = "No hay datos para el rango de años seleccionado." := by
  apply C4_empty_range 2000 2024 [["3", "7", "1980"]] (by norm_num)
  intro row hr y hy hb
  simp only [List.mem_cons, List.not_mem_nil, or_false] at hr
  subst hr
  injection hy with hy2
  subst hy2
  exact ⟨1980, rfl, by decide⟩

/-- Counterexample to C7: the row `["abc", "2.0", "2000"]` passes the year
filter, yet assembling the toggled-on primary series raises `ValueError`
from `float("abc")` instead of coercing the non-numeric entry to 0. -/
theorem C7_counterexample :
    filteredRowsVeg 1985 2024 [["abc", "2.0", "2000"]] =
      Except.ok [["abc", "2.0", "2000"]] ∧
    seriesValues 0 [["abc", "2.0", "2000"]] = Except.error PyError.valueError ∧
    assembleVegSeries true true [["abc", "2.0", "2000"]] =
      Except.error PyError.valueError :=
  ⟨rfl, rfl, rfl⟩

/-- C7 (amended): for a toggled-on quantity column, the values are parsed
to floating point in row order; a non-numeric entry raises `ValueError`
(shown by the counterexample), so the series exists exactly when every
entry of the column parses, in which case it lists the parsed values. -/
theorem C7_amended_parse (filtered : List CsvRow)
    (h : ∀ row ∈ filtered, ∃ q, floatAt 0 row = Except.ok q) :
    ∃ l, seriesValues 0 filtered = Except.ok l ∧
      List.Forall₂ (fun row q => floatAt 0 row = Except.ok q) filtered l := by
  induction filtered with
  | nil => exact ⟨[], rfl, List.Forall₂.nil⟩
  | cons row rest ih =>
      obtain ⟨q, hq⟩ := h row (by simp)
      obtain ⟨l, hl, hf⟩ := ih (fun r hr => h r (by simp [hr]))
      refine ⟨q :: l, ?_, List.Forall₂.cons hq hf⟩
      unfold seriesValues
      rw [hq, hl]

/-- Witness for C7 (amended) on a single fully numeric row. -/
theorem C7_amended_parse_witness :
    ∃ l, seriesValues 0 [["3", "7", "2001"]] = Except.ok l ∧
      List.Forall₂ (fun row q => floatAt 0 row = Except.ok q)
        [["3", "7", "2001"]] l := by
  apply C7_amended_parse
  intro row hr
  simp only [List.mem_cons, List.not_mem_nil, or_false] at hr
  subst hr
  exact ⟨3, rfl⟩

/-- C10: in the land-cover branch the filter guards only `len(row) > 4`
yet reads `row[6]`, so a row with exactly five fields passes the length
check and the condition raises `IndexError`: the filter is not total over
row shapes. -/
theorem C10_land_cover_index_error :
    (["1.0", "2.0", "3.0", "4.0", "5.0"] : CsvRow).length = 5 ∧
    rowKeep 4 6 1985 2024 ["1.0", "2.0", "3.0", "4.0", "5.0"] =
      Except.error PyError.indexError ∧
    filteredRowsCov 1985 2024 [["1.0", "2.0", "3.0", "4.0", "5.0"]] =
      Except.error PyError.indexError :=
  ⟨rfl, rfl, rfl⟩

/-! ### Claims about loading and the layer-display control flow -/

/-- Counterexample to C8: on a source file the default encoding cannot
decode, the loader raises `UnicodeDecodeError` at once; the claimed loader
would recover the rows through the Latin-1 fallback, so the two differ. -/
theorem C8_counterexample :
    loadData "x.csv" (fun _ => FileState.file false [["3", "7", "2001"]]) =
      Except.error LoadError.unicodeDecodeError ∧
    loadDataClaim "x.csv" (fun _ => FileState.file false [["3", "7", "2001"]]) =
      Except.ok [["3", "7", "2001"]] ∧
    loadData "x.csv" (fun _ => FileState.file false [["3", "7", "2001"]]) ≠
      loadDataClaim "x.csv" (fun _ => FileState.file false [["3", "7", "2001"]]) := by
  refine ⟨rfl, rfl, fun hcontra => ?_⟩
  rw [show loadData "x.csv" (fun _ => FileState.file false [["3", "7", "2001"]]) =
      Except.error LoadError.unicodeDecodeError from rfl,
    show loadDataClaim "x.csv" (fun _ => FileState.file false [["3", "7", "2001"]]) =
      Except.ok [["3", "7", "2001"]] from rfl] at hcontra
  exact Except.noConfusion hcontra

/-- C8 (amended): the loader attempts only the platform default encoding;
a decode failure raises `UnicodeDecodeError` immediately, with no Latin-1
retry and no further error type; a missing source fails fast with
`FileNotFoundError` naming the expected path, never silently returning
empty data; a decodable source yields its rows. -/
theorem C8_amended_loader (path : String) (fs : String → FileState) :
    (fs path = FileState.missing →
      loadData path fs = Except.error (LoadError.fileNotFound path)) ∧
    (∀ rows, fs path = FileState.file false rows →
      loadData path fs = Except.error LoadError.unicodeDecodeError) ∧
    (∀ rows, fs path = FileState.file true rows →
      loadData path fs = Except.ok rows) := by
  refine ⟨fun h => ?_, fun rows h => ?_, fun rows h => ?_⟩ <;>
    simp [loadData, h]

/-- Witness for C8 (amended): a missing file raises an error naming the
path. -/
theorem C8_amended_loader_witness :
    loadData "datos.csv" (fun _ => FileState.missing) =
      Except.error (LoadError.fileNotFound "datos.csv") :=
  (C8_amended_loader "datos.csv" (fun _ => FileState.missing)).1 rfl

/-- Helper: two fresh sliders with distinct identities render and return
the chosen values. -/
theorem twoSliders_fresh (s1 s2 : SliderSpec) (v1 v2 : ℚ) (pal : List String)
    (hne : s2 ≠ s1) :
    twoSliders [] s1 s2 v1 v2 pal = Except.ok (⟨v1, v2, pal⟩, [s1, s2]) := by
  unfold twoSliders sliderCall
  simp only [if_neg (List.not_mem_nil s1), List.nil_append]
  simp only [if_neg (fun hmem => hne (List.mem_singleton.mp hmem))]
  rfl

/-- Helper: a slider whose identity is already registered raises the
duplicate-element error. -/
theorem twoSliders_dup (s1 s2 : SliderSpec) (reg : List SliderSpec)
    (v1 v2 : ℚ) (pal : List String) (hmem : s1 ∈ reg) :
    twoSliders reg s1 s2 v1 v2 pal =
      Except.error MainError.duplicateWidgetId := by
  unfold twoSliders sliderCall
  simp only [if_pos hmem]

/-- Helper: the first configuration block never raises, whatever the layer
selection: its two sliders per branch have distinct labels and start from
an empty widget registry. -/
theorem firstConfigBlock_ok (layer : String) (sMin sMax : ℚ) :
    ∃ vp reg, firstConfigBlock layer sMin sMax [] = Except.ok (vp, reg) := by
  unfold firstConfigBlock
  by_cases h1 : layer = "Índice IET"
  · rw [if_pos h1]
    exact ⟨_, _, twoSliders_fresh _ _ _ _ _ (by decide)⟩
  · rw [if_neg h1]
    by_cases h2 : layer = "NDMI"
    · rw [if_pos h2]
      exact ⟨_, _, twoSliders_fresh _ _ _ _ _ (by decide)⟩
    · rw [if_neg h2]
      by_cases h3 : layer = "SAVI"
      · rw [if_pos h3]
        exact ⟨_, _, twoSliders_fresh _ _ _ _ _ (by decide)⟩
      · rw [if_neg h3]
        by_cases h4 : layer = "EVI"
        · rw [if_pos h4]
          exact ⟨_, _, twoSliders_fresh _ _ _ _ _ (by decide)⟩
        · rw [if_neg h4]
          by_cases h5 : layer = "NDBI"
          · rw [if_pos h5]
            exact ⟨_, _, twoSliders_fresh _ _ _ _ _ (by decide)⟩
          · rw [if_neg h5]
            exact ⟨_, _, rfl⟩

/-- Helper: the compute-once variant never raises. -/
theorem mainDisplayOnce_ok (layer : String) (sMin sMax : ℚ) (dataOk : Bool) :
    ∃ v, mainDisplayOnce layer sMin sMax dataOk = Except.ok v := by
  obtain ⟨vp, reg, h⟩ := firstConfigBlock_ok layer sMin sMax
  refine ⟨if dataOk then some ⟨indexLayerFor layer vp, reg, true⟩ else none, ?_⟩
  unfold mainDisplayOnce
  rw [h]
  cases dataOk <;> rfl

/-- Helper: the whole flow, given the outcomes of the two configuration
blocks in sequence, when the second block raises. -/
theorem mainDisplay_error_of_blocks (layer : String)
    (sMin sMax sMin2 sMax2 : ℚ) (dataOk : Bool) (vp : VisParams)
    (reg1 : List SliderSpec) (e : MainError)
    (h1 : firstConfigBlock layer sMin sMax [] = Except.ok (vp, reg1))
    (h2 : secondConfigBlock layer sMin2 sMax2 reg1 = Except.error e) :
    mainDisplay layer sMin sMax sMin2 sMax2 dataOk = Except.error e := by
  unfold mainDisplay
  simp only [h1, h2]

/-- Helper: in each of the NDMI, SAVI, EVI and NDBI branches the first
configuration block creates the two standard sliders and sets that
branch's palette. -/
theorem firstConfigBlock_std (layer : String) (sMin sMax : ℚ)
    (h : layer = "NDMI" ∨ layer = "SAVI" ∨ layer = "EVI" ∨ layer = "NDBI") :
    ∃ pal, firstConfigBlock layer sMin sMax [] =
      Except.ok (⟨sMin, sMax, pal⟩, [vminStd, vmaxStd]) := by
  rcases h with h | h | h | h <;> subst h
  · refine ⟨["brown", "yellow", "blue"], ?_⟩
    unfold firstConfigBlock
    rw [if_neg (by decide), if_pos rfl]
    exact twoSliders_fresh _ _ _ _ _ (by decide)
  · refine ⟨["brown", "yellow", "green"], ?_⟩
    unfold firstConfigBlock
    rw [if_neg (by decide), if_neg (by decide), if_pos rfl]
    exact twoSliders_fresh _ _ _ _ _ (by decide)
  · refine ⟨["brown", "yellow", "green"], ?_⟩
    unfold firstConfigBlock
    rw [if_neg (by decide), if_neg (by decide), if_neg (by decide), if_pos rfl]
    exact twoSliders_fresh _ _ _ _ _ (by decide)
  · refine ⟨["green", "yellow", "gray"], ?_⟩
    unfold firstConfigBlock
    rw [if_neg (by decide), if_neg (by decide), if_neg (by decide),
      if_neg (by decide), if_pos rfl]
    exact twoSliders_fresh _ _ _ _ _ (by decide)

/-- Helper: in each of the NDMI, SAVI, EVI and NDBI branches the second
configuration block re-creates the standard minimum slider; when that
identity is already registered the block raises the duplicate-element
error. -/
theorem secondConfigBlock_std_dup (layer : String) (sMin2 sMax2 : ℚ)
    (reg : List SliderSpec) (hmem : vminStd ∈ reg)
    (h : layer = "NDMI" ∨ layer = "SAVI" ∨ layer = "EVI" ∨ layer = "NDBI") :
    secondConfigBlock layer sMin2 sMax2 reg =
      Except.error MainError.duplicateWidgetId := by
  rcases h with h | h | h | h <;> subst h
  · unfold secondConfigBlock
    rw [if_neg (by decide), if_pos rfl]
    simp only [twoSliders_dup vminStd vmaxStd reg sMin2 sMax2 _ hmem]
  · unfold secondConfigBlock
    rw [if_neg (by decide), if_neg (by decide), if_pos rfl]
    simp only [twoSliders_dup vminStd vmaxStd reg sMin2 sMax2 _ hmem]
  · unfold secondConfigBlock
    rw [if_neg (by decide), if_neg (by decide), if_neg (by decide), if_pos rfl]
    simp only [twoSliders_dup vminStd vmaxStd reg sMin2 sMax2 _ hmem]
  · unfold secondConfigBlock
    rw [if_neg (by decide), if_neg (by decide), if_neg (by decide),
      if_neg (by decide), if_pos rfl]
    simp only [twoSliders_dup vminStd vmaxStd reg sMin2 sMax2 _ hmem]

/-- Counterexample to C9: the duplicated configuration block is not
effect-free.  Selecting `"Índice IET"` makes it read the local variable
`data` before its assignment, raising `UnboundLocalError`; selecting
`"NDMI"` makes it re-create a slider identical to the first block's,
raising Streamlit's duplicate-element error.  The compute-once variant
succeeds on both selections, so the observable behaviour differs. -/
theorem C9_counterexample :
    mainDisplay "Índice IET" 0 1 0 1 true =
      Except.error MainError.unboundLocalData ∧
    mainDisplay "NDMI" (-1) 1 (-1) 1 true =
      Except.error MainError.duplicateWidgetId ∧
    mainDisplayOnce "Índice IET" 0 1 true =
      Except.ok (some ⟨some ("Índice IET", ⟨0, 1, ["red", "yellow", "green"]⟩),
        [vminIET, vmaxIET], true⟩) ∧
    mainDisplayOnce "NDMI" (-1) 1 true =
      Except.ok (some ⟨some ("NDMI", ⟨-1, 1, ["brown", "yellow", "blue"]⟩),
        [vminStd, vmaxStd], true⟩) ∧
    mainDisplay "Índice IET" 0 1 0 1 true ≠
      mainDisplayOnce "Índice IET" 0 1 true ∧
    mainDisplay "NDMI" (-1) 1 (-1) 1 true ≠
      mainDisplayOnce "NDMI" (-1) 1 true := by
  have hf1 : firstConfigBlock "Índice IET" (0 : ℚ) 1 [] =
      Except.ok (⟨0, 1, ["red", "yellow", "green"]⟩, [vminIET, vmaxIET]) := by
    unfold firstConfigBlock
    rw [if_pos rfl]
    exact twoSliders_fresh _ _ _ _ _ (by decide)
  have hf2 : firstConfigBlock "NDMI" (-1 : ℚ) 1 [] =
      Except.ok (⟨-1, 1, ["brown", "yellow", "blue"]⟩, [vminStd, vmaxStd]) := by
    unfold firstConfigBlock
    rw [if_neg (by decide), if_pos rfl]
    exact twoSliders_fresh _ _ _ _ _ (by decide)
  have hs1 : secondConfigBlock "Índice IET" (0 : ℚ) 1 [vminIET, vmaxIET] =
      Except.error MainError.unboundLocalData := by
    unfold secondConfigBlock
    rw [if_pos rfl]
  have hs2 : secondConfigBlock "NDMI" (-1 : ℚ) 1 [vminStd, vmaxStd] =
      Except.error MainError.duplicateWidgetId :=
    secondConfigBlock_std_dup "NDMI" (-1) 1 [vminStd, vmaxStd]
      (List.mem_cons_self _ _) (Or.inl rfl)
  have hA := mainDisplay_error_of_blocks "Índice IET" 0 1 0 1 true _ _ _ hf1 hs1
  have hB := mainDisplay_error_of_blocks "NDMI" (-1) 1 (-1) 1 true _ _ _ hf2 hs2
  have hC : mainDisplayOnce "Índice IET" 0 1 true =
      Except.ok (some ⟨some ("Índice IET", ⟨0, 1, ["red", "yellow", "green"]⟩),
        [vminIET, vmaxIET], true⟩) := by
    unfold mainDisplayOnce
    simp only [hf1]
    rfl
  have hD : mainDisplayOnce "NDMI" (-1) 1 true =
      Except.ok (some ⟨some ("NDMI", ⟨-1, 1, ["brown", "yellow", "blue"]⟩),
        [vminStd, vmaxStd], true⟩) := by
    unfold mainDisplayOnce
    simp only [hf2]
    rfl
  refine ⟨hA, hB, hC, hD, ?_, ?_⟩
  · rw [hA, hC]
    exact fun hcontra => Except.noConfusion hcontra
  · rw [hB, hD]
    exact fun hcontra => Except.noConfusion hcontra

/-- C9 (amended): the duplicated configuration block is not effect-free
for any reachable layer selection: selecting `"Índice IET"` reads the
local `data` before its assignment and raises `UnboundLocalError`, and
each of the other four offered layers re-creates sliders identical to the
first block's, raising Streamlit's duplicate-element error — in both
cases the behaviour differs from the variant that computes each display
parameter exactly once.  Only for a selection outside the five offered
options (unreachable through the selectbox) is the block a dead
reassignment with behaviour equal to that variant. -/
theorem C9_amended_duplicated_block (layer : String)
    (sMin sMax sMin2 sMax2 : ℚ) (dataOk : Bool) :
    (layer = "Índice IET" →
      mainDisplay layer sMin sMax sMin2 sMax2 dataOk =
        Except.error MainError.unboundLocalData) ∧
    (layer = "NDMI" ∨ layer = "SAVI" ∨ layer = "EVI" ∨ layer = "NDBI" →
      mainDisplay layer sMin sMax sMin2 sMax2 dataOk =
        Except.error MainError.duplicateWidgetId) ∧
    (layer ∈ layerOptions →
      mainDisplay layer sMin sMax sMin2 sMax2 dataOk ≠
        mainDisplayOnce layer sMin sMax dataOk) ∧
    (layer ∉ layerOptions →
      mainDisplay layer sMin sMax sMin2 sMax2 dataOk =
        mainDisplayOnce layer sMin sMax dataOk) := by
  have hIET : layer = "Índice IET" →
      mainDisplay layer sMin sMax sMin2 sMax2 dataOk =
        Except.error MainError.unboundLocalData := by
    intro h
    subst h
    have h1 : firstConfigBlock "Índice IET" sMin sMax [] =
        Except.ok (⟨sMin, sMax, ["red", "yellow", "green"]⟩,
          [vminIET, vmaxIET]) := by
      unfold firstConfigBlock
      rw [if_pos rfl]
      exact twoSliders_fresh _ _ _ _ _ (by decide)
    have h2 : secondConfigBlock "Índice IET" sMin2 sMax2 [vminIET, vmaxIET] =
        Except.error MainError.unboundLocalData := by
      unfold secondConfigBlock
      rw [if_pos rfl]
    exact mainDisplay_error_of_blocks _ _ _ _ _ _ _ _ _ h1 h2
  have hstd : (layer = "NDMI" ∨ layer = "SAVI" ∨ layer = "EVI" ∨
      layer = "NDBI") →
      mainDisplay layer sMin sMax sMin2 sMax2 dataOk =
        Except.error MainError.duplicateWidgetId := by
    intro h
    obtain ⟨pal, h1⟩ := firstConfigBlock_std layer sMin sMax h
    have h2 := secondConfigBlock_std_dup layer sMin2 sMax2
      [vminStd, vmaxStd] (List.mem_cons_self _ _) h
    exact mainDisplay_error_of_blocks _ _ _ _ _ _ _ _ _ h1 h2
  refine ⟨hIET, hstd, ?_, ?_⟩
  · intro hmem
    obtain ⟨v, hv⟩ := mainDisplayOnce_ok layer sMin sMax dataOk
    have herr : ∃ e, mainDisplay layer sMin sMax sMin2 sMax2 dataOk =
        Except.error e := by
      simp only [layerOptions, List.mem_cons, List.not_mem_nil, or_false]
        at hmem
      rcases hmem with h | h
      · exact ⟨_, hIET h⟩
      · exact ⟨_, hstd h⟩
    obtain ⟨e, he⟩ := herr
    rw [he, hv]
    exact fun hcontra => Except.noConfusion hcontra
  · intro hmem
    have h1 : layer ≠ "Índice IET" := fun h => hmem (by simp [layerOptions, h])
    have h2 : layer ≠ "NDMI" := fun h => hmem (by simp [layerOptions, h])
    have h3 : layer ≠ "SAVI" := fun h => hmem (by simp [layerOptions, h])
    have h4 : layer ≠ "EVI" := fun h => hmem (by simp [layerOptions, h])
    have h5 : layer ≠ "NDBI" := fun h => hmem (by simp [layerOptions, h])
    have hfb : firstConfigBlock layer sMin sMax [] =
        Except.ok (⟨0, 1, ["blue", "green", "red"]⟩, []) := by
      unfold firstConfigBlock
      rw [if_neg h1, if_neg h2, if_neg h3, if_neg h4, if_neg h5]
    have hsb : secondConfigBlock layer sMin2 sMax2 [] = Except.ok [] := by
      unfold secondConfigBlock
      rw [if_neg h1, if_neg h2, if_neg h3, if_neg h4, if_neg h5]
    unfold mainDisplay mainDisplayOnce
    simp only [hfb, hsb]

/-- Witness for C9 (amended): the NDMI selection hits the duplicate-slider
error, and a selection outside the offered options behaves like the
compute-once variant. -/
theorem C9_amended_duplicated_block_witness :
    mainDisplay "NDMI" (-1) 1 (-1) 1 true =
      Except.error MainError.duplicateWidgetId ∧
    mainDisplay "Zonas" 0 1 0 1 true = mainDisplayOnce "Zonas" 0 1 true :=
  ⟨(C9_amended_duplicated_block "NDMI" (-1) 1 (-1) 1 true).2.1 (Or.inl rfl),
   (C9_amended_duplicated_block "Zonas" 0 1 0 1 true).2.2.2 (by decide)⟩
